import Mathlib

/-!
# Verification of the DevOps playground user service (`src/app/app.py`)

A shallow embedding of the Flask application in `src/app/app.py`.

The application serves user records from a relational store
(PostgreSQL via psycopg2) with a cache-aside layer (Redis), plus
health and metrics endpoints.  The embedding models:

* the request body as an optional association list of JSON values
  (`request.get_json()` returns `None` or a dict);
* the store as a list of rows plus the next SERIAL id;
* the cache as an association list from keys to user snapshots
  (entries are only ever written by `create_user` as `json.dumps` of a
  user dict, which is a non-empty valid JSON string, so the Python
  truthiness test `if cached_user:` and the `json.loads` round-trip
  are modelled by presence of a structured snapshot);
* environment faults as per-request boolean flags: whether
  `get_db_connection()` succeeds, whether the SQL statements raise an
  unexpected exception, whether `redis_client` is `None` (startup ping
  failed), and whether each individual redis call
  (`ping`/`get`/`setex`) raises;
* each handler's outcome as either an HTTP response or an unhandled
  exception escaping the handler (which Flask turns into a 500), plus
  resource statistics: how many times `get_db_connection()` was
  called and how many successfully opened connections were never
  closed by the end of the request.
-/

set_option autoImplicit false

namespace DevOpsApp

/-- A JSON value appearing in a request body.  The claims only concern
null and string values, so the embedding restricts to those. -/
inductive JVal where
  | jnull : JVal
  | jstr : String → JVal
  deriving Repr, DecidableEq

/-- A request body: `none` models `request.get_json()` yielding no JSON
dict; `some data` models a JSON object as an association list. -/
abbrev Body := Option (List (String × JVal))

/-- A row of the `users` table:
`users(id serial pk, name varchar not null, email varchar unique not null,
created_at timestamp default now)`. -/
structure Row where
  id : Nat
  name : String
  email : String
  createdAt : String
  deriving Repr, DecidableEq

/-- The relational store: the `users` rows and the next value of the
SERIAL `id` column. -/
structure DB where
  rows : List Row
  nextId : Nat
  deriving Repr, DecidableEq

/-- A cached user snapshot, i.e. the parsed form of the JSON string
stored under `"user:" + id` (fields `id`, `name`, `email`,
`created_at` as written by `create_user` / read by `get_user`). -/
structure Snapshot where
  id : Nat
  name : String
  email : String
  createdAt : String
  deriving Repr, DecidableEq

/-- The cache key space.  Writes prepend; reads take the first match,
which gives redis SET-overwrite semantics. -/
abbrev Cache := List (String × Snapshot)

/-- Combined mutable state visible to the handlers. -/
structure SysState where
  db : DB
  cache : Cache
  deriving Repr, DecidableEq

/-- Per-request environment faults.
`dbConnect`: `get_db_connection()` returns a connection (not `None`).
`dbQueryOk`: the SQL statements raise no unexpected exception.
`redisAvail`: `redis_client` is not `None` (the startup ping succeeded).
`pingRaises`/`getRaises`/`setexRaises`: the corresponding redis call
raises on this request. -/
structure Faults where
  dbConnect : Bool
  dbQueryOk : Bool
  redisAvail : Bool
  pingRaises : Bool
  getRaises : Bool
  setexRaises : Bool
  deriving Repr, DecidableEq

/-- Response bodies, one constructor per `jsonify`/text shape used by
the handlers. -/
inductive RespBody where
  /-- `jsonify({'error': msg})` -/
  | errJson : String → RespBody
  /-- `jsonify(dict(user))` or `jsonify(json.loads(cached_user))` -/
  | userJson : Snapshot → RespBody
  /-- `jsonify({'id', 'name', 'email', 'message'})` from `create_user` -/
  | createdJson : Nat → String → String → RespBody
  /-- `jsonify([dict(user) for user in users])` -/
  | usersJson : List Snapshot → RespBody
  /-- `/health` body: overall status, database status, redis status -/
  | healthJson : String → String → String → RespBody
  /-- `/metrics` plain-text body: the `prometheus_metrics` list of
  lines, joined with a newline by the final `'\n'.join`. -/
  | textLines : List String → RespBody
  deriving Repr, DecidableEq

/-- An HTTP response produced by a handler. -/
structure HttpResp where
  status : Nat
  body : RespBody
  deriving Repr, DecidableEq

/-- What the HTTP layer sees from a handler: a response, or an
unhandled exception escaping the handler (Flask then produces an
internal-error response, not the handler's own). -/
inductive Outcome where
  | ok : HttpResp → Outcome
  | raised : Outcome
  deriving Repr, DecidableEq

/-- Store-connection accounting for one request: how many times the
handler called `get_db_connection()`, and how many successfully opened
connections it failed to close before returning. -/
structure ReqStats where
  dbCalls : Nat
  leaked : Nat
  deriving Repr, DecidableEq

/-- Full result of running one handler. -/
structure HandlerResult where
  out : Outcome
  state : SysState
  stats : ReqStats
  deriving Repr, DecidableEq

/-- First-match lookup in the cache (redis GET). -/
def lookupC : Cache → String → Option Snapshot
  | [], _ => none
  | (k₂, v) :: rest, k => if k₂ = k then some v else lookupC rest k

/-- Cache write (redis SETEX): prepend, shadowing any previous entry. -/
def setC (c : Cache) (k : String) (v : Snapshot) : Cache :=
  (k, v) :: c

/-- `k in data` on a Python dict, for the validation check. -/
def hasKey (data : List (String × JVal)) (k : String) : Bool :=
  data.any (fun p => p.1 == k)

/-- `data[k]` on a Python dict (the handlers only subscript keys whose
presence was checked; the `jnull` default is never reached there). -/
def getVal (data : List (String × JVal)) (k : String) : JVal :=
  match data.find? (fun p => p.1 == k) with
  | some p => p.2
  | none => JVal.jnull

/-- The cache key `f"user:{user_id}"`. -/
def userKey (uid : Nat) : String :=
  "user:" ++ toString uid

/-- `dict(user)` for a fetched row (RealDictCursor row as a snapshot). -/
def snapshotOfRow (r : Row) : Snapshot :=
  ⟨r.id, r.name, r.email, r.createdAt⟩

/-- Outcome of the INSERT statement in `create_user`. -/
inductive InsertOut where
  /-- `psycopg2.IntegrityError`: email uniqueness violated, or a NULL
  value for a NOT NULL column. -/
  | conflict : InsertOut
  /-- The inserted row and the store after the commit. -/
  | inserted : Row → DB → InsertOut
  deriving Repr, DecidableEq

/-- `INSERT INTO users (name, email) VALUES (%s, %s) RETURNING id`,
followed by `commit`.  `now` is the `CURRENT_TIMESTAMP` default for
`created_at`. -/
def insertUser (db : DB) (nameV emailV : JVal) (now : String) : InsertOut :=
  match nameV, emailV with
  | JVal.jstr n, JVal.jstr e =>
      if db.rows.any (fun r => r.email == e) then
        InsertOut.conflict
      else
        InsertOut.inserted ⟨db.nextId, n, e, now⟩
          ⟨db.rows ++ [⟨db.nextId, n, e, now⟩], db.nextId + 1⟩
  | _, _ => InsertOut.conflict

/-- Insertion into a list sorted by `createdAt` descending. -/
def insertByCreatedDesc (r : Row) : List Row → List Row
  | [] => [r]
  | x :: xs =>
      if x.createdAt ≤ r.createdAt then r :: x :: xs
      else x :: insertByCreatedDesc r xs

/-- `SELECT * FROM users ORDER BY created_at DESC`. -/
def orderByCreatedDesc : List Row → List Row
  | [] => []
  | x :: xs => insertByCreatedDesc x (orderByCreatedDesc xs)

/-- Handler for `GET /health` (`detailed_health`, app.py lines
106-137).  The store check opens and closes one connection; the redis
`ping` is inside `try/except`, and a missing client also counts as
unhealthy.  The overall status starts `healthy` and each failing check
downgrades it to `degraded`; the HTTP status is always 200. -/
def detailed_health (f : Faults) : HttpResp × ReqStats :=
  let dbOk := f.dbConnect
  let redisOk := f.redisAvail && !f.pingRaises
  let overall := if dbOk && redisOk then "healthy" else "degraded"
  (⟨200,
     RespBody.healthJson overall
       (if dbOk then "healthy" else "unhealthy")
       (if redisOk then "healthy" else "unhealthy")⟩,
   ⟨1, 0⟩)

/-- Handler for `GET /users` (`get_users`, app.py lines 139-155).
`conn.close()` runs in `finally`, so no path leaks the connection. -/
def get_users (f : Faults) (s : SysState) : HandlerResult :=
  if !f.dbConnect then
    ⟨Outcome.ok ⟨500, RespBody.errJson "Database connection failed"⟩, s, ⟨1, 0⟩⟩
  else if !f.dbQueryOk then
    ⟨Outcome.ok ⟨500, RespBody.errJson "Failed to fetch users"⟩, s, ⟨1, 0⟩⟩
  else
    ⟨Outcome.ok ⟨200,
       RespBody.usersJson ((orderByCreatedDesc s.db.rows).map snapshotOfRow)⟩,
     s, ⟨1, 0⟩⟩

/-- The validation check of `create_user` (app.py line 161):
`not data or 'name' not in data or 'email' not in data`, negated. -/
def validateData (data : List (String × JVal)) : Bool :=
  !data.isEmpty && (hasKey data "name" && hasKey data "email")

/-- The store-and-cache part of `create_user` (app.py lines 164-202),
entered only after validation passes.  The `setex` call is guarded by
`if redis_client:` and wrapped in `try/except`, so a missing client or
a raising call leaves the cache unchanged and the response unaffected.
`IntegrityError` maps to 409, any other SQL error to 500, and
`conn.close()` runs in `finally` on every path. -/
def create_user_db (f : Faults) (s : SysState) (data : List (String × JVal))
    (now : String) : HandlerResult :=
  if !f.dbConnect then
    ⟨Outcome.ok ⟨500, RespBody.errJson "Database connection failed"⟩, s, ⟨1, 0⟩⟩
  else if !f.dbQueryOk then
    ⟨Outcome.ok ⟨500, RespBody.errJson "Failed to create user"⟩, s, ⟨1, 0⟩⟩
  else
    match insertUser s.db (getVal data "name") (getVal data "email") now with
    | InsertOut.conflict =>
        ⟨Outcome.ok ⟨409, RespBody.errJson "Email already exists"⟩, s, ⟨1, 0⟩⟩
    | InsertOut.inserted row db₂ =>
        let cache₂ :=
          if f.redisAvail && !f.setexRaises then
            setC s.cache (userKey row.id) (snapshotOfRow row)
          else s.cache
        ⟨Outcome.ok ⟨201, RespBody.createdJson row.id row.name row.email⟩,
         ⟨db₂, cache₂⟩, ⟨1, 0⟩⟩

/-- Handler for `POST /users` (`create_user`, app.py lines 157-202).
Validation runs before `get_db_connection()`, so a 400 touches neither
store nor cache. -/
def create_user (f : Faults) (s : SysState) (body : Body) (now : String) :
    HandlerResult :=
  match body with
  | none =>
      ⟨Outcome.ok ⟨400, RespBody.errJson "Name and email are required"⟩, s, ⟨0, 0⟩⟩
  | some data =>
      if validateData data then create_user_db f s data now
      else
        ⟨Outcome.ok ⟨400, RespBody.errJson "Name and email are required"⟩, s, ⟨0, 0⟩⟩

/-- The store-fallback part of `get_user` (app.py lines 216-233).
All paths close the connection (`finally`) and leave the state
untouched; in particular the fallback never writes the cache. -/
def get_user_db (f : Faults) (s : SysState) (uid : Nat) : HandlerResult :=
  if !f.dbConnect then
    ⟨Outcome.ok ⟨500, RespBody.errJson "Database connection failed"⟩, s, ⟨1, 0⟩⟩
  else if !f.dbQueryOk then
    ⟨Outcome.ok ⟨500, RespBody.errJson "Failed to fetch user"⟩, s, ⟨1, 0⟩⟩
  else
    match s.db.rows.find? (fun r => r.id == uid) with
    | some r => ⟨Outcome.ok ⟨200, RespBody.userJson (snapshotOfRow r)⟩, s, ⟨1, 0⟩⟩
    | none => ⟨Outcome.ok ⟨404, RespBody.errJson "User not found"⟩, s, ⟨1, 0⟩⟩

/-- Handler for `GET /users/{id}` (`get_user`, app.py lines 204-233).
The cache attempt runs only when `redis_client` is present; a raising
`get` is caught by the `except` and falls through to the store, as
does a missing entry.  A cache hit returns the cached snapshot with
the default 200 status and never calls `get_db_connection()`. -/
def get_user (f : Faults) (s : SysState) (uid : Nat) : HandlerResult :=
  if f.redisAvail then
    if f.getRaises then get_user_db f s uid
    else
      match lookupC s.cache (userKey uid) with
      | some v => ⟨Outcome.ok ⟨200, RespBody.userJson v⟩, s, ⟨0, 0⟩⟩
      | none => get_user_db f s uid
  else get_user_db f s uid

/-- Handler for `GET /metrics` (`metrics`, app.py lines 235-250).
Two deviations from the rest of the code, both modelled faithfully:
the `get_db_connection()` on line 241 is truth-tested but never
closed, so a successful connect is leaked; and the
`redis_client.ping()` on line 242 is not wrapped in `try/except`, so a
raising ping escapes the handler.  The dict is built before
formatting, so the connection is already opened (and leaked) when the
ping raises. -/
def metrics (f : Faults) : Outcome × ReqStats :=
  let stats : ReqStats := ⟨1, if f.dbConnect then 1 else 0⟩
  let dbActive : Nat := if f.dbConnect then 1 else 0
  if f.redisAvail then
    if f.pingRaises then (Outcome.raised, stats)
    else
      (Outcome.ok ⟨200, RespBody.textLines (metricLines dbActive 1)⟩, stats)
  else
    (Outcome.ok ⟨200, RespBody.textLines (metricLines dbActive 0)⟩, stats)
where
  /-- The `prometheus_metrics` list: one `f"{metric} {value}"` line per
  entry of `metrics_data`, in insertion order. -/
  metricLines (dbActive redisActive : Nat) : List String :=
    ["http_requests_total 1",
     "http_request_duration_seconds 0.1",
     "database_connections_active " ++ toString dbActive,
     "redis_connections_active " ++ toString redisActive]

/-- The overall status string of a `/health` response body. -/
def healthOverall (r : HttpResp) : String :=
  match r.body with
  | RespBody.healthJson overall _ _ => overall
  | _ => ""

/-- The HTTP status the handler itself produced, if it produced one. -/
def outHttpStatus (o : Outcome) : Option Nat :=
  match o with
  | Outcome.ok r => some r.status
  | Outcome.raised => none

/-- A request body lacking the `name` field, lacking the `email`
field, or having no JSON dict at all. -/
def missingField (body : Body) : Bool :=
  match body with
  | none => true
  | some data => !hasKey data "name" || !hasKey data "email"

/-- The `/metrics` success shape: a 200 response whose plain-text body
is exactly four lines beginning with the four metric tokens. -/
def metricsFourLines (o : Outcome) : Bool :=
  match o with
  | Outcome.ok r =>
      (r.status == 200) &&
      (match r.body with
       | RespBody.textLines [l₁, l₂, l₃, l₄] =>
           "http_requests_total".data.isPrefixOf l₁.data &&
           "http_request_duration_seconds".data.isPrefixOf l₂.data &&
           "database_connections_active".data.isPrefixOf l₃.data &&
           "redis_connections_active".data.isPrefixOf l₄.data
       | _ => false)
  | Outcome.raised => false

/-- C6: `GET /health` always answers 200, and the embedded overall
status is `degraded` exactly when the store connect check or the cache
ping check fails (a missing cache client counting as a failed check),
and `healthy` exactly when both succeed. -/
theorem health_degraded_iff (f : Faults) :
    (detailed_health f).1.status = 200 ∧
    (healthOverall (detailed_health f).1 = "degraded" ↔
      (f.dbConnect = false ∨ f.redisAvail = false ∨ f.pingRaises = true)) ∧
    (healthOverall (detailed_health f).1 = "healthy" ↔
      (f.dbConnect = true ∧ f.redisAvail = true ∧ f.pingRaises = false)) := by
  obtain ⟨dc, dq, ra, pr, gr, sr⟩ := f
  cases dc <;> cases dq <;> cases ra <;> cases pr <;> cases gr <;> cases sr <;>
    decide

/-- C5: when the cache client is present, the `get` call does not
raise, and the cache holds an entry for `"user:" + id`, `GET
/users/{id}` answers 200 with exactly the cached snapshot, leaves the
state unchanged, and never calls `get_db_connection()` — whatever the
store fault flags say. -/
theorem cache_hit_returns_cached (f : Faults) (s : SysState) (uid : Nat)
    (v : Snapshot) (hr : f.redisAvail = true) (hg : f.getRaises = false)
    (hv : lookupC s.cache (userKey uid) = some v) :
    get_user f s uid = ⟨Outcome.ok ⟨200, RespBody.userJson v⟩, s, ⟨0, 0⟩⟩ := by
  simp [get_user, hr, hg, hv]

/-- Witness for C5: a cache hit answers from the cache even though the
store is unreachable (`dbConnect = false`). -/
theorem cache_hit_returns_cached_witness :
    get_user ⟨false, false, true, false, false, false⟩
        ⟨⟨[], 1⟩, [("user:1", ⟨1, "Jane", "jane@example.com", "t0"⟩)]⟩ 1 =
      ⟨Outcome.ok ⟨200, RespBody.userJson ⟨1, "Jane", "jane@example.com", "t0"⟩⟩,
       ⟨⟨[], 1⟩, [("user:1", ⟨1, "Jane", "jane@example.com", "t0"⟩)]⟩, ⟨0, 0⟩⟩ :=
  cache_hit_returns_cached _ _ _ _ rfl rfl (by decide)

/-- C7: a `GET /users/{id}` that misses the cache and reads the row
from the store answers 200 with the row and leaves the whole state —
in particular the cache — unchanged: the fallback path never
repopulates the cache. -/
theorem store_fallback_leaves_cache (f : Faults) (s : SysState) (uid : Nat)
    (r : Row) (hmiss : lookupC s.cache (userKey uid) = none)
    (hc : f.dbConnect = true) (hq : f.dbQueryOk = true)
    (hfind : s.db.rows.find? (fun row => row.id == uid) = some r) :
    get_user f s uid =
      ⟨Outcome.ok ⟨200, RespBody.userJson (snapshotOfRow r)⟩, s, ⟨1, 0⟩⟩ := by
  have hdb : get_user_db f s uid =
      ⟨Outcome.ok ⟨200, RespBody.userJson (snapshotOfRow r)⟩, s, ⟨1, 0⟩⟩ := by
    simp [get_user_db, hc, hq, hfind]
  unfold get_user
  cases hra : f.redisAvail <;> cases hg : f.getRaises <;> simp [hmiss, hdb]

/-- Witness for C7: empty cache, one stored row; the read leaves the
cache empty. -/
theorem store_fallback_leaves_cache_witness :
    get_user ⟨true, true, true, false, false, false⟩
        ⟨⟨[⟨1, "Jane", "jane@example.com", "t0"⟩], 2⟩, []⟩ 1 =
      ⟨Outcome.ok ⟨200, RespBody.userJson ⟨1, "Jane", "jane@example.com", "t0"⟩⟩,
       ⟨⟨[⟨1, "Jane", "jane@example.com", "t0"⟩], 2⟩, []⟩, ⟨1, 0⟩⟩ :=
  store_fallback_leaves_cache ⟨true, true, true, false, false, false⟩
    ⟨⟨[⟨1, "Jane", "jane@example.com", "t0"⟩], 2⟩, []⟩ 1
    ⟨1, "Jane", "jane@example.com", "t0"⟩ rfl rfl rfl (by decide)

/-- C4: a `POST /users` whose body lacks `email` (or lacks `name`, or
has no JSON body) answers 400 with the validation error, leaves the
store and cache untouched, and never calls `get_db_connection()`. -/
theorem missing_field_400_no_write (f : Faults) (s : SysState) (body : Body)
    (now : String) (h : missingField body = true) :
    create_user f s body now =
      ⟨Outcome.ok ⟨400, RespBody.errJson "Name and email are required"⟩,
       s, ⟨0, 0⟩⟩ := by
  match body with
  | none => rfl
  | some data =>
      simp only [missingField, Bool.or_eq_true, Bool.not_eq_true'] at h
      have hvf : validateData data = false := by
        rcases h with h | h <;> simp [validateData, h]
      simp [create_user, hvf]

/-- Witness for C4: a body carrying only `name` answers 400 and the
store keeps its single row. -/
theorem missing_field_400_no_write_witness :
    create_user ⟨true, true, true, false, false, false⟩
        ⟨⟨[⟨1, "Jane", "jane@example.com", "t0"⟩], 2⟩, []⟩
        (some [("name", JVal.jstr "John Doe")]) "t1" =
      ⟨Outcome.ok ⟨400, RespBody.errJson "Name and email are required"⟩,
       ⟨⟨[⟨1, "Jane", "jane@example.com", "t0"⟩], 2⟩, []⟩, ⟨0, 0⟩⟩ :=
  missing_field_400_no_write _ _ _ _ (by decide)

/-- C10: validation of `POST /users` checks only that the keys `name`
and `email` are present: any body carrying both keys — whatever the
values, empty strings and nulls included — passes validation, proceeds
to the store insert, and never receives the 400 validation answer. -/
theorem validation_checks_presence_only (data : List (String × JVal))
    (f : Faults) (s : SysState) (now : String)
    (hn : hasKey data "name" = true) (he : hasKey data "email" = true) :
    validateData data = true ∧
    create_user f s (some data) now = create_user_db f s data now ∧
    outHttpStatus (create_user f s (some data) now).out ≠ some 400 := by
  have hne : data.isEmpty = false := by
    cases data with
    | nil => simp [hasKey] at hn
    | cons a l => rfl
  have hv : validateData data = true := by
    simp [validateData, hne, hn, he]
  refine ⟨hv, by simp [create_user, hv], ?_⟩
  simp only [create_user, hv, if_true]
  unfold create_user_db
  split
  · simp [outHttpStatus]
  split
  · simp [outHttpStatus]
  split <;> simp [outHttpStatus]

/-- Witness for C10: the body `{"name": "", "email": null}` passes
validation and reaches the insert path. -/
theorem validation_checks_presence_only_witness :
    validateData [("name", JVal.jstr ""), ("email", JVal.jnull)] = true ∧
    create_user ⟨true, true, false, false, false, false⟩ ⟨⟨[], 1⟩, []⟩
        (some [("name", JVal.jstr ""), ("email", JVal.jnull)]) "t0" =
      create_user_db ⟨true, true, false, false, false, false⟩ ⟨⟨[], 1⟩, []⟩
        [("name", JVal.jstr ""), ("email", JVal.jnull)] "t0" ∧
    outHttpStatus (create_user ⟨true, true, false, false, false, false⟩
        ⟨⟨[], 1⟩, []⟩
        (some [("name", JVal.jstr ""), ("email", JVal.jnull)]) "t0").out ≠
      some 400 :=
  validation_checks_presence_only _ _ _ _ (by decide) (by decide)

/-- C1 counterexample: in `/metrics` the `redis_client.ping()` call is
not wrapped in `try/except`; with the client present, the same request
yields an unhandled exception when ping raises and a 200 response when
it does not, so the outcome seen by the HTTP caller does depend on a
cache call raising. -/
theorem metrics_ping_raise_escapes :
    (metrics ⟨true, true, true, true, false, false⟩).1 = Outcome.raised ∧
    (metrics ⟨true, true, true, false, false, false⟩).1 =
      Outcome.ok ⟨200, RespBody.textLines
        ["http_requests_total 1", "http_request_duration_seconds 0.1",
         "database_connections_active 1", "redis_connections_active 1"]⟩ := by
  constructor <;> rfl

/-- C1 amended: cache-call failures are caught at the call site and
degrade to cache-miss behaviour in `get_user` (a raising `get` behaves
exactly like the store-fallback path), in `create_user` (a raising
`setex` leaves response, store and cache exactly as if the cache
client were absent), and in `/health` (which still answers 200) — but
in `/metrics` a raising `ping` escapes the handler unhandled. -/
theorem cache_errors_swallowed_except_metrics (f : Faults) (s : SysState)
    (uid : Nat) (body : Body) (now : String) :
    (f.getRaises = true → get_user f s uid = get_user_db f s uid) ∧
    (f.setexRaises = true →
      create_user f s body now =
        create_user ⟨f.dbConnect, f.dbQueryOk, false, f.pingRaises,
          f.getRaises, f.setexRaises⟩ s body now ∧
      (create_user f s body now).state.cache = s.cache) ∧
    (detailed_health f).1.status = 200 ∧
    (f.redisAvail = true → f.pingRaises = true →
      (metrics f).1 = Outcome.raised) := by
  obtain ⟨dc, dq, ra, pr, gr, sr⟩ := f
  refine ⟨?_, ?_, rfl, ?_⟩
  · intro hg
    subst hg
    cases ra <;> rfl
  · intro hs
    subst hs
    constructor
    · match body with
      | none => rfl
      | some data =>
          by_cases hv : validateData data = true
          · simp only [create_user, hv, if_true]
            unfold create_user_db
            cases dc <;> cases dq <;> simp
          · simp [create_user, hv]
    · match body with
      | none => rfl
      | some data =>
          by_cases hv : validateData data = true
          · simp only [create_user, hv, if_true]
            unfold create_user_db
            split
            · rfl
            split
            · rfl
            split
            · rfl
            · simp
          · simp [create_user, hv]
  · intro hra hpr
    subst hra; subst hpr
    rfl

/-- Witness for C1 amended: with every cache call raising, `GET
/users/1` equals the store-fallback read, a `POST /users` leaves the
cache of a one-entry state unchanged, `/health` still answers 200, and
`/metrics` raises. -/
theorem cache_errors_swallowed_except_metrics_witness :
    (get_user ⟨true, true, true, true, true, true⟩ ⟨⟨[], 1⟩, []⟩ 1 =
      get_user_db ⟨true, true, true, true, true, true⟩ ⟨⟨[], 1⟩, []⟩ 1) ∧
    (create_user ⟨true, true, true, true, true, true⟩ ⟨⟨[], 1⟩, []⟩
        (some [("name", JVal.jstr "Jane"), ("email", JVal.jstr "j@e")]) "t0" =
      create_user ⟨true, true, false, true, true, true⟩ ⟨⟨[], 1⟩, []⟩
        (some [("name", JVal.jstr "Jane"), ("email", JVal.jstr "j@e")]) "t0" ∧
      (create_user ⟨true, true, true, true, true, true⟩ ⟨⟨[], 1⟩, []⟩
        (some [("name", JVal.jstr "Jane"), ("email", JVal.jstr "j@e")]) "t0").state.cache
        = []) ∧
    (detailed_health ⟨true, true, true, true, true, true⟩).1.status = 200 ∧
    ((metrics ⟨true, true, true, true, true, true⟩).1 = Outcome.raised) := by
  have h := cache_errors_swallowed_except_metrics
    ⟨true, true, true, true, true, true⟩ ⟨⟨[], 1⟩, []⟩ 1
    (some [("name", JVal.jstr "Jane"), ("email", JVal.jstr "j@e")]) "t0"
  exact ⟨h.1 rfl, h.2.1 rfl, h.2.2.1, h.2.2.2 rfl rfl⟩

/-- C2 counterexample: the `/metrics` handler truth-tests
`get_db_connection()` without ever closing it, so with the store
reachable one request ends with one store connection still open. -/
theorem metrics_leaks_connection :
    (metrics ⟨true, true, false, false, false, false⟩).2.leaked = 1 := rfl

/-- C2 amended: `get_users`, `create_user`, `get_user` and `/health`
release every store connection they open on every exit path, but
`/metrics` leaks one connection per request whenever
`get_db_connection()` succeeds. -/
theorem handlers_release_connections_except_metrics (f : Faults) (s : SysState)
    (body : Body) (now : String) (uid : Nat) :
    (get_users f s).stats.leaked = 0 ∧
    (create_user f s body now).stats.leaked = 0 ∧
    (get_user f s uid).stats.leaked = 0 ∧
    (detailed_health f).2.leaked = 0 ∧
    (metrics f).2.leaked = (if f.dbConnect then 1 else 0) := by
  obtain ⟨dc, dq, ra, pr, gr, sr⟩ := f
  refine ⟨?_, ?_, ?_, rfl, ?_⟩
  · cases dc <;> cases dq <;> rfl
  · match body with
    | none => rfl
    | some data =>
        by_cases hv : validateData data = true
        · simp only [create_user, hv, if_true]
          unfold create_user_db
          split
          · rfl
          split
          · rfl
          split <;> rfl
        · simp [create_user, hv]
  · have hdb : (get_user_db ⟨dc, dq, ra, pr, gr, sr⟩ s uid).stats.leaked = 0 := by
      unfold get_user_db
      split
      · rfl
      split
      · rfl
      split <;> rfl
    unfold get_user
    split
    · split
      · exact hdb
      · split
        · rfl
        · exact hdb
    · exact hdb
  · cases dc <;> cases ra <;> cases pr <;> rfl

/-- C3 counterexample: `/metrics` with the cache client present and a
raising `ping` does not produce the 200 four-line body — the handler
raises instead. -/
theorem metrics_not_always_200 :
    metricsFourLines (metrics ⟨false, true, true, true, false, false⟩).1 =
      false := rfl

/-- C3 amended: whenever the cache client is absent or its `ping` does
not raise, `GET /metrics` answers 200 with a plain-text body of
exactly four lines carrying the four metric tokens, whatever the store
availability; but a present client whose `ping` raises escapes the
handler. -/
theorem metrics_four_lines (f : Faults)
    (h : ¬(f.redisAvail = true ∧ f.pingRaises = true)) :
    metricsFourLines (metrics f).1 = true := by
  obtain ⟨dc, dq, ra, pr, gr, sr⟩ := f
  cases dc <;> cases ra <;> cases pr <;> first
    | rfl
    | exact absurd ⟨rfl, rfl⟩ h

/-- Witness for C3 amended: with the store down and the cache client
absent, `/metrics` still produces the four token lines. -/
theorem metrics_four_lines_witness :
    metricsFourLines (metrics ⟨false, true, false, false, false, false⟩).1 =
      true :=
  metrics_four_lines ⟨false, true, false, false, false, false⟩ (by decide)

/-- Shared helper: a `POST /users` carrying a string name and a fresh
string email, with the store reachable and the statements succeeding,
appends the row under the next SERIAL id and answers 201; the cache
gains the snapshot exactly when the cache client is present and
`setex` does not raise. -/
theorem create_user_fresh (f : Faults) (s : SysState) (n e now : String)
    (hc : f.dbConnect = true) (hq : f.dbQueryOk = true)
    (hfresh : ∀ r ∈ s.db.rows, r.email ≠ e) :
    create_user f s (some [("name", JVal.jstr n), ("email", JVal.jstr e)]) now =
      ⟨Outcome.ok ⟨201, RespBody.createdJson s.db.nextId n e⟩,
       ⟨⟨s.db.rows ++ [⟨s.db.nextId, n, e, now⟩], s.db.nextId + 1⟩,
        if f.redisAvail && !f.setexRaises then
          (userKey s.db.nextId, ⟨s.db.nextId, n, e, now⟩) :: s.cache
        else s.cache⟩,
       ⟨1, 0⟩⟩ := by
  have hany : s.db.rows.any (fun r => r.email == e) = false := by
    rw [List.any_eq_false]
    intro r hr
    simp [hfresh r hr]
  have hins : insertUser s.db (JVal.jstr n) (JVal.jstr e) now =
      InsertOut.inserted ⟨s.db.nextId, n, e, now⟩
        ⟨s.db.rows ++ [⟨s.db.nextId, n, e, now⟩], s.db.nextId + 1⟩ := by
    simp [insertUser, hany]
  have hv : validateData [("name", JVal.jstr n), ("email", JVal.jstr e)] =
      true := rfl
  have hgn : getVal [("name", JVal.jstr n), ("email", JVal.jstr e)] "name" =
      JVal.jstr n := rfl
  have hge : getVal [("name", JVal.jstr n), ("email", JVal.jstr e)] "email" =
      JVal.jstr e := rfl
  simp only [create_user, hv, if_true]
  unfold create_user_db
  rw [hc, hq, hgn, hge, hins]
  simp [setC, snapshotOfRow]

/-- Shared helper: the store-fallback read of `GET /users/{id}` on a
store whose rows end with the freshly inserted row answers 200 with
that row, provided no earlier row carries its id. -/
theorem get_user_db_fresh_row (f : Faults) (rows : List Row) (nid : Nat)
    (n e now : String) (c : Cache)
    (hc : f.dbConnect = true) (hq : f.dbQueryOk = true)
    (hid : ∀ r ∈ rows, r.id < nid) :
    get_user_db f ⟨⟨rows ++ [⟨nid, n, e, now⟩], nid + 1⟩, c⟩ nid =
      ⟨Outcome.ok ⟨200, RespBody.userJson ⟨nid, n, e, now⟩⟩,
       ⟨⟨rows ++ [⟨nid, n, e, now⟩], nid + 1⟩, c⟩, ⟨1, 0⟩⟩ := by
  have hnone : rows.find? (fun r => r.id == nid) = none := by
    rw [List.find?_eq_none]
    intro r hr
    simp [Nat.ne_of_lt (hid r hr)]
  have hfind : List.find? (fun r => r.id == nid)
      (rows ++ [(⟨nid, n, e, now⟩ : Row)]) = some (⟨nid, n, e, now⟩ : Row) := by
    rw [List.find?_append, hnone]
    simp [List.find?]
  simp [get_user_db, hc, hq, hfind, snapshotOfRow]

/-- C8: for every state whose row ids respect the SERIAL counter and
whose cache has no entry for the upcoming id, creating a user with a
string name and a previously-unused string email answers 201 with the
new id, and an immediately following `GET /users/{id}` on that id
answers 200 with matching name and email — through the cache or
through the store, under any cache fault flags. -/
theorem create_then_get_consistent (f₁ f₂ : Faults) (s : SysState)
    (n e now : String)
    (hwf : ∀ r ∈ s.db.rows, r.id < s.db.nextId)
    (hfresh : ∀ r ∈ s.db.rows, r.email ≠ e)
    (hstale : lookupC s.cache (userKey s.db.nextId) = none)
    (h₁c : f₁.dbConnect = true) (h₁q : f₁.dbQueryOk = true)
    (h₂c : f₂.dbConnect = true) (h₂q : f₂.dbQueryOk = true) :
    (create_user f₁ s (some [("name", JVal.jstr n), ("email", JVal.jstr e)])
        now).out =
      Outcome.ok ⟨201, RespBody.createdJson s.db.nextId n e⟩ ∧
    (get_user f₂
        (create_user f₁ s (some [("name", JVal.jstr n), ("email", JVal.jstr e)])
          now).state
        s.db.nextId).out =
      Outcome.ok ⟨200, RespBody.userJson ⟨s.db.nextId, n, e, now⟩⟩ := by
  rw [create_user_fresh f₁ s n e now h₁c h₁q hfresh]
  refine ⟨rfl, ?_⟩
  have hdb : ∀ c : Cache,
      (get_user_db f₂
        ⟨⟨s.db.rows ++ [⟨s.db.nextId, n, e, now⟩], s.db.nextId + 1⟩, c⟩
        s.db.nextId).out =
      Outcome.ok ⟨200, RespBody.userJson ⟨s.db.nextId, n, e, now⟩⟩ := by
    intro c
    rw [get_user_db_fresh_row f₂ s.db.rows s.db.nextId n e now c h₂c h₂q hwf]
  by_cases hc2 : (f₁.redisAvail && !f₁.setexRaises) = true
  · rw [if_pos hc2]
    have hlook : lookupC
        ((userKey s.db.nextId, ⟨s.db.nextId, n, e, now⟩) :: s.cache)
        (userKey s.db.nextId) = some ⟨s.db.nextId, n, e, now⟩ := by
      simp [lookupC]
    unfold get_user
    cases hra : f₂.redisAvail
    · simp only [Bool.false_eq_true, if_false]
      exact hdb _
    · simp only [if_true]
      cases hg : f₂.getRaises
      · simp only [Bool.false_eq_true, if_false, hlook]
      · simp only [if_true]
        exact hdb _
  · rw [if_neg hc2]
    unfold get_user
    cases hra : f₂.redisAvail
    · simp only [Bool.false_eq_true, if_false]
      exact hdb _
    · simp only [if_true]
      cases hg : f₂.getRaises
      · simp only [Bool.false_eq_true, if_false, hstale]
        exact hdb _
      · simp only [if_true]
        exact hdb _

/-- Witness for C8: on the empty store with an empty cache, creating
`("Jane Doe", "jane@example.com")` answers 201 with id 1 and reading
user 1 answers 200 with the matching record. -/
theorem create_then_get_consistent_witness :
    (create_user ⟨true, true, true, false, false, false⟩ ⟨⟨[], 1⟩, []⟩
        (some [("name", JVal.jstr "Jane Doe"),
               ("email", JVal.jstr "jane@example.com")]) "t0").out =
      Outcome.ok ⟨201, RespBody.createdJson 1 "Jane Doe" "jane@example.com"⟩ ∧
    (get_user ⟨true, true, true, false, false, false⟩
        (create_user ⟨true, true, true, false, false, false⟩ ⟨⟨[], 1⟩, []⟩
          (some [("name", JVal.jstr "Jane Doe"),
                 ("email", JVal.jstr "jane@example.com")]) "t0").state
        1).out =
      Outcome.ok ⟨200,
        RespBody.userJson ⟨1, "Jane Doe", "jane@example.com", "t0"⟩⟩ :=
  create_then_get_consistent ⟨true, true, true, false, false, false⟩
    ⟨true, true, true, false, false, false⟩ ⟨⟨[], 1⟩, []⟩
    "Jane Doe" "jane@example.com" "t0"
    (by simp) (by simp) rfl rfl rfl rfl rfl

/-- C9: after a successful create with a fresh email, a second `POST
/users` reusing the same email hits the store's uniqueness violation,
which the handler maps to 409 — not 500 — and the store and cache are
unchanged by the second request. -/
theorem duplicate_email_conflict (f₁ f₂ : Faults) (s : SysState)
    (n₁ n₂ e now₁ now₂ : String)
    (hfresh : ∀ r ∈ s.db.rows, r.email ≠ e)
    (h₁c : f₁.dbConnect = true) (h₁q : f₁.dbQueryOk = true)
    (h₂c : f₂.dbConnect = true) (h₂q : f₂.dbQueryOk = true) :
    (create_user f₁ s (some [("name", JVal.jstr n₁), ("email", JVal.jstr e)])
        now₁).out =
      Outcome.ok ⟨201, RespBody.createdJson s.db.nextId n₁ e⟩ ∧
    (create_user f₂
        (create_user f₁ s (some [("name", JVal.jstr n₁), ("email", JVal.jstr e)])
          now₁).state
        (some [("name", JVal.jstr n₂), ("email", JVal.jstr e)]) now₂).out =
      Outcome.ok ⟨409, RespBody.errJson "Email already exists"⟩ ∧
    (create_user f₂
        (create_user f₁ s (some [("name", JVal.jstr n₁), ("email", JVal.jstr e)])
          now₁).state
        (some [("name", JVal.jstr n₂), ("email", JVal.jstr e)]) now₂).state =
      (create_user f₁ s (some [("name", JVal.jstr n₁), ("email", JVal.jstr e)])
        now₁).state := by
  rw [create_user_fresh f₁ s n₁ e now₁ h₁c h₁q hfresh]
  have hany : List.any (s.db.rows ++ [(⟨s.db.nextId, n₁, e, now₁⟩ : Row)])
      (fun r => r.email == e) = true := by
    simp
  have hins : insertUser
      ⟨s.db.rows ++ [⟨s.db.nextId, n₁, e, now₁⟩], s.db.nextId + 1⟩
      (JVal.jstr n₂) (JVal.jstr e) now₂ = InsertOut.conflict := by
    simp [insertUser, hany]
  have hv : validateData [("name", JVal.jstr n₂), ("email", JVal.jstr e)] =
      true := rfl
  have hgn : getVal [("name", JVal.jstr n₂), ("email", JVal.jstr e)] "name" =
      JVal.jstr n₂ := rfl
  have hge : getVal [("name", JVal.jstr n₂), ("email", JVal.jstr e)] "email" =
      JVal.jstr e := rfl
  refine ⟨rfl, ?_, ?_⟩ <;>
  · simp only [create_user, hv, if_true]
    unfold create_user_db
    rw [h₂c, h₂q, hgn, hge]
    simp [hins]

/-- Witness for C9: creating `jane@example.com` twice on the empty
store answers 201 then 409, and the second request changes nothing. -/
theorem duplicate_email_conflict_witness :
    (create_user ⟨true, true, true, false, false, false⟩ ⟨⟨[], 1⟩, []⟩
        (some [("name", JVal.jstr "Jane"),
               ("email", JVal.jstr "jane@example.com")]) "t0").out =
      Outcome.ok ⟨201, RespBody.createdJson 1 "Jane" "jane@example.com"⟩ ∧
    (create_user ⟨true, true, true, false, false, false⟩
        (create_user ⟨true, true, true, false, false, false⟩ ⟨⟨[], 1⟩, []⟩
          (some [("name", JVal.jstr "Jane"),
                 ("email", JVal.jstr "jane@example.com")]) "t0").state
        (some [("name", JVal.jstr "John"),
               ("email", JVal.jstr "jane@example.com")]) "t1").out =
      Outcome.ok ⟨409, RespBody.errJson "Email already exists"⟩ ∧
    (create_user ⟨true, true, true, false, false, false⟩
        (create_user ⟨true, true, true, false, false, false⟩ ⟨⟨[], 1⟩, []⟩
          (some [("name", JVal.jstr "Jane"),
                 ("email", JVal.jstr "jane@example.com")]) "t0").state
        (some [("name", JVal.jstr "John"),
               ("email", JVal.jstr "jane@example.com")]) "t1").state =
      (create_user ⟨true, true, true, false, false, false⟩ ⟨⟨[], 1⟩, []⟩
        (some [("name", JVal.jstr "Jane"),
               ("email", JVal.jstr "jane@example.com")]) "t0").state :=
  duplicate_email_conflict ⟨true, true, true, false, false, false⟩
    ⟨true, true, true, false, false, false⟩ ⟨⟨[], 1⟩, []⟩
    "Jane" "John" "jane@example.com" "t0" "t1"
    (by simp) rfl rfl rfl rfl

end DevOpsApp
